import Mathlib

/-!
Verification of the Pacman engine (src/game.py, src/pacman.py) against its
natural-language specification.

The Python code is shallowly embedded: pure functions become Lean functions,
Python exceptions become `Except String`, Python `float` arithmetic on game
positions becomes `ℚ` (all reachable positions are multiples of 1/2, where
binary floating point is exact), Python `int` becomes `ℤ`, and Python list
indexing (including negative-index wrap-around and `IndexError`) is modelled
explicitly.  The single piece of interior mutability that is observable
through the public API — the `_eaten` list, which `GameStateData.__init__`
aliases from the predecessor and `GhostRules.collide` mutates in place — is
modelled by threading an explicit heap of `_eaten` lists; a snapshot stores
the index (`eatenRef`) of its `_eaten` list in that heap.
-/

set_option maxRecDepth 4000

instance {ε α : Type} [DecidableEq ε] [DecidableEq α] : DecidableEq (Except ε α) := fun x y =>
  match x, y with
  | .error a, .error b =>
    if h : a = b then .isTrue (by rw [h]) else .isFalse (by intro hc; cases hc; exact h rfl)
  | .ok a, .ok b =>
    if h : a = b then .isTrue (by rw [h]) else .isFalse (by intro hc; cases hc; exact h rfl)
  | .error _, .ok _ => .isFalse (by intro hc; cases hc)
  | .ok _, .error _ => .isFalse (by intro hc; cases hc)

namespace PacmanGame

/-- Movement directions, from `Directions` in game.py. -/
inductive Direction where
  | north
  | south
  | east
  | west
  | stop
deriving DecidableEq

/-- `Actions.reverseDirection` from game.py: swaps North/South and East/West,
and returns the action itself for Stop. -/
def reverseDirection (action : Direction) : Direction :=
  match action with
  | .north => .south
  | .south => .north
  | .east => .west
  | .west => .east
  | .stop => .stop

/-- `Actions._directions` from game.py: the unit vector of each direction. -/
def directionVec (d : Direction) : ℤ × ℤ :=
  match d with
  | .north => (0, 1)
  | .south => (0, -1)
  | .east => (1, 0)
  | .west => (-1, 0)
  | .stop => (0, 0)

/-- `Actions._directionsAsList` from game.py: dict iteration order is the
insertion order North, South, East, West, Stop. -/
def directionsAsList : List (Direction × ℤ × ℤ) :=
  [(.north, (0, 1)), (.south, (0, -1)), (.east, (1, 0)), (.west, (-1, 0)), (.stop, (0, 0))]

/-! Game positions are Python floats; every position the engine manipulates
is a dyadic rational, on which binary floating point is exact, so positions
are embedded as ℚ.  Mathlib's `Rat.add`, `Rat.sub`, `Rat.mul` and `Rat.div`
are `@[irreducible]`, which the kernel will not evaluate, so the embedding
computes with the following definitionally-reducible wrappers; each is
proved equal to the standard operation (`qAdd_eq` and friends below), and
every general theorem is stated and proved through those equations. -/

/-- Addition on ℚ by the textbook numerator/denominator formula. -/
def qAdd (a b : ℚ) : ℚ := mkRat (a.num * b.den + b.num * a.den) (a.den * b.den)

/-- Subtraction on ℚ by the textbook numerator/denominator formula. -/
def qSub (a b : ℚ) : ℚ := mkRat (a.num * b.den - b.num * a.den) (a.den * b.den)

/-- Multiplication on ℚ by the textbook numerator/denominator formula. -/
def qMul (a b : ℚ) : ℚ := mkRat (a.num * b.num) (a.den * b.den)

/-- Halving on ℚ (`speed /= 2.0` is the only division in the rule engine). -/
def qHalf (a : ℚ) : ℚ := mkRat a.num (a.den * 2)

/-- Absolute value on ℚ. -/
def qAbs (a : ℚ) : ℚ := mkRat (Int.ofNat a.num.natAbs) a.den

/-- The rational 1/2. -/
def half : ℚ := mkRat 1 2

/-- `Actions.vectorToDirection` from game.py, with its priority order:
dy>0 is North, dy<0 is South, dx<0 is West, dx>0 is East, else Stop. -/
def vectorToDirection (vector : ℚ × ℚ) : Direction :=
  if vector.2 > 0 then .north
  else if vector.2 < 0 then .south
  else if vector.1 < 0 then .west
  else if vector.1 > 0 then .east
  else .stop

/-- `Actions.directionToVector` from game.py: the unit vector scaled by speed. -/
def directionToVector (direction : Direction) (speed : ℚ) : ℚ × ℚ :=
  (qMul ((directionVec direction).1 : ℚ) speed, qMul ((directionVec direction).2 : ℚ) speed)

/-- Python `int()` applied to a rational value: truncation toward zero
(`Int.tdiv` truncates toward zero, like Python `int()`). -/
def pyInt (q : ℚ) : ℤ :=
  Int.tdiv q.num (q.den : ℤ)

/-- Modelled from the spec: `manhattanDistance` lives in util.py, which is not
under src/; the spec describes it as the Manhattan distance between two
positions. -/
def manhattanDistance (a b : ℚ × ℚ) : ℚ :=
  qAdd (qAbs (qSub a.1 b.1)) (qAbs (qSub a.2 b.2))

/-- Modelled from the spec: `nearestPoint` lives in util.py, which is not
under src/; the spec describes it as rounding a position to "the nearest
grid-aligned point" via its "rounded integer coordinate" `int(x + 0.5)`. -/
def nearestPoint (p : ℚ × ℚ) : ℤ × ℤ :=
  (pyInt (qAdd p.1 half), pyInt (qAdd p.2 half))

/-- Cast an integer grid point to a rational position. -/
def ratPair (p : ℤ × ℤ) : ℚ × ℚ :=
  ((p.1 : ℚ), (p.2 : ℚ))

/-- `Configuration` from game.py: a continuous position plus a facing
direction. -/
structure Configuration where
  pos : ℚ × ℚ
  direction : Direction
deriving DecidableEq

/-- `Configuration.generateSuccessor` from game.py: translate by the vector;
a zero vector keeps the old facing ("there is no stop direction"). -/
def Configuration.generateSuccessor (c : Configuration) (vector : ℚ × ℚ) : Configuration :=
  let dir := vectorToDirection vector
  { pos := (qAdd c.pos.1 vector.1, qAdd c.pos.2 vector.2)
    direction := if dir = .stop then c.direction else dir }

/-- `AgentState` from game.py.  `AgentState.copy` duplicates every field, so
in this value-semantics embedding a copied agent state is the same value. -/
structure AgentState where
  start : Configuration
  configuration : Configuration
  isPacman : Bool
  scaredTimer : ℤ
  numCarrying : ℤ
  numReturned : ℤ
deriving DecidableEq

/-! ## Python list indexing -/

/-- Normalize a Python list index: negative indices count from the end;
anything still out of range is an `IndexError`. -/
def pyNorm (n : ℕ) (i : ℤ) : Option ℕ :=
  let j := if i < 0 then i + n else i
  if 0 ≤ j ∧ j < n then some j.toNat else none

/-- Python `l[i]` for an integer index. -/
def pyIndex {α : Type} (l : List α) (i : ℤ) : Except String α :=
  match pyNorm l.length i with
  | some k =>
    match l[k]? with
    | some a => .ok a
    | none => .error "list index out of range"
  | none => .error "list index out of range"

/-- Python `l[i] = v` for an integer index. -/
def pyListSet {α : Type} (l : List α) (i : ℤ) (v : α) : Except String (List α) :=
  match pyNorm l.length i with
  | some k => .ok (l.set k v)
  | none => .error "list assignment index out of range"

/-- Python `l[i]` for a natural-number index (agent indices). -/
def pyIndexNat {α : Type} (l : List α) (i : ℕ) : Except String α :=
  match l[i]? with
  | some a => .ok a
  | none => .error "list index out of range"

/-! ## Grid -/

/-- `Grid` from game.py: a width×height boolean field stored column-major as a
list of columns, accessed `data[x][y]`. -/
structure Grid where
  width : ℤ
  height : ℤ
  data : List (List Bool)
deriving DecidableEq

/-- `Grid.CELLS_PER_INT` from game.py. -/
def CELLS_PER_INT : ℤ := 30

/-- Python `grid[x][y]` (read). -/
def Grid.get (g : Grid) (x y : ℤ) : Except String Bool :=
  match pyIndex g.data x with
  | .error e => .error e
  | .ok col => pyIndex col y

/-- Python `grid[x][y] = v`: reads the column `data[x]`, mutates it at `y`; in
value semantics the mutation replaces the column at its normalized index. -/
def Grid.set (g : Grid) (x y : ℤ) (v : Bool) : Except String Grid :=
  match pyIndex g.data x with
  | .error e => .error e
  | .ok col =>
    match pyListSet col y v with
    | .error e => .error e
    | .ok col2 =>
      match pyNorm g.data.length x with
      | some k => .ok { g with data := g.data.set k col2 }
      | none => .error "list index out of range"

/-- `Grid.count` from game.py: `sum([x.count(item) for x in self.data])` with
`item = True`. -/
def Grid.count (g : Grid) : ℕ :=
  (g.data.map (fun col => col.count true)).sum

/-- `Grid.copy` from game.py duplicates the outer list and every column; a
value-semantics copy is the value itself. -/
def Grid.copy (g : Grid) : Grid := g

/-- A `Grid(width, height)` fresh from the constructor: all cells False. -/
def Grid.init (width height : ℤ) : Grid :=
  { width := width, height := height
    data := List.replicate width.toNat (List.replicate height.toNat false) }

/-- `Grid._cellIndexToPosition` from game.py.  Crucially, `x` is computed by
`index / self.height`, which in Python 3 is TRUE division: it yields a value
of type `float` even when `height` divides `index`.  The float-ness is
recorded here by the type ℚ of the first component.  (`y = index % height`
is ordinary integer arithmetic; Python `%` with a positive divisor agrees
with `Int.emod`.) -/
def Grid.cellIndexToPosition (g : Grid) (index : ℤ) : ℚ × ℤ :=
  ((index : ℚ) / (g.height : ℚ), index % g.height)

/-- The message of the `TypeError` Python raises when a list is indexed with
a `float`. -/
def floatIndexMsg : String :=
  "TypeError: list indices must be integers or slices, not float"

/-- Python `grid[x][y]` where `x` is a `float` (the result of true division):
`self.data[x]` raises `TypeError` regardless of the numeric value of `x`,
because list indices must be integers. -/
def Grid.getFloat (_g : Grid) (_x : ℚ) (_y : ℤ) : Except String Bool :=
  .error floatIndexMsg

/-- Python `grid[x][y] = v` where `x` is a `float`: the read `self.data[x]`
raises `TypeError` before the assignment can happen. -/
def Grid.setFloat (_g : Grid) (_x : ℚ) (_y : ℤ) (_v : Bool) : Except String Grid :=
  .error floatIndexMsg

/-- The loop body of `Grid.packBits` from game.py, over the remaining cell
indices, carrying the accumulated words and the word being filled. -/
def packBitsLoop (g : Grid) : List ℕ → List ℤ → ℤ → Except String (List ℤ × ℤ)
  | [], bits, currentInt => .ok (bits, currentInt)
  | i :: rest, bits, currentInt =>
    let bit := CELLS_PER_INT - ((i : ℤ) % CELLS_PER_INT) - 1
    let xy := g.cellIndexToPosition (i : ℤ)
    match g.getFloat xy.1 xy.2 with
    | .error e => .error e
    | .ok v =>
      let c2 := if v then currentInt + 2 ^ bit.toNat else currentInt
      if ((i : ℤ) + 1) % CELLS_PER_INT = 0 then
        packBitsLoop g rest (bits ++ [c2]) 0
      else
        packBitsLoop g rest bits c2

/-- `Grid.packBits` from game.py: starts from `[width, height]`, iterates the
cells in column-major order (`range(self.height * self.width)`), and appends
the trailing partial word unconditionally. -/
def Grid.packBits (g : Grid) : Except String (List ℤ) :=
  match packBitsLoop g (List.range (g.height * g.width).toNat) [g.width, g.height] 0 with
  | .error e => .error e
  | .ok (bits, currentInt) => .ok (bits ++ [currentInt])

/-- The inner loop of `Grid._unpackInt` from game.py: most-significant bit
first, subtracting `2^(CELLS_PER_INT - i - 1)` when the bit is set. -/
def unpackIntLoop (i size : ℕ) (packed : ℤ) : List Bool :=
  match size with
  | 0 => []
  | s + 1 =>
    let n := (2 : ℤ) ^ (CELLS_PER_INT - (i : ℤ) - 1).toNat
    if packed ≥ n then
      true :: unpackIntLoop (i + 1) s (packed - n)
    else
      false :: unpackIntLoop (i + 1) s packed

/-- `Grid._unpackInt` from game.py: fails on a negative word, else produces
`size` booleans most-significant-bit-first. -/
def Grid.unpackInt (_g : Grid) (packed : ℤ) (size : ℕ) : Except String (List Bool) :=
  if packed < 0 then .error "must be a positive integer"
  else .ok (unpackIntLoop 0 size packed)

/-- The inner loop of `Grid._unpackBits`: writes the unpacked booleans of one
word into consecutive cells, stopping (Python `break`) once `cell` reaches
`width * height`.  Each write `self[x][y] = bit` indexes the data with the
float `x` from `_cellIndexToPosition` and therefore raises `TypeError`. -/
def unpackBitsCells (g : Grid) (cell : ℕ) : List Bool → Except String (Grid × ℕ)
  | [] => .ok (g, cell)
  | b :: rest =>
    if (cell : ℤ) = g.width * g.height then .ok (g, cell)
    else
      let xy := g.cellIndexToPosition (cell : ℤ)
      match g.setFloat xy.1 xy.2 b with
      | .error e => .error e
      | .ok g2 => unpackBitsCells g2 (cell + 1) rest

/-- The outer loop of `Grid._unpackBits` over the packed words. -/
def unpackBitsWords (g : Grid) (cell : ℕ) : List ℤ → Except String Grid
  | [] => .ok g
  | packed :: rest =>
    match g.unpackInt packed CELLS_PER_INT.toNat with
    | .error e => .error e
    | .ok bools =>
      match unpackBitsCells g cell bools with
      | .error e => .error e
      | .ok (g2, cell2) => unpackBitsWords g2 cell2 rest

/-- `Grid._unpackBits` from game.py. -/
def Grid.unpackBits (g : Grid) (bits : List ℤ) : Except String Grid :=
  unpackBitsWords g 0 bits

/-- `reconstituteGrid` from game.py: the first two entries are the
dimensions; the constructor runs `_unpackBits` when the remaining tuple is
non-empty (Python truthiness of a tuple). -/
def reconstituteGrid (bitRep : List ℤ) : Except String Grid :=
  match bitRep with
  | w :: h :: rest =>
    if rest = [] then .ok (Grid.init w h)
    else (Grid.init w h).unpackBits rest
  | _ => .error "not a packed grid"

/-- The round trip of the spec: `unpack(pack(g))`. -/
def roundTrip (g : Grid) : Except String Grid :=
  match g.packBits with
  | .error e => .error e
  | .ok bits => reconstituteGrid bits

/-- Spec scenario 1: `Grid(3,2)` with cells `(0,0)` and `(2,1)` set true.
Columns are indexed `data[x][y]`. -/
def exampleGrid32 : Grid :=
  { width := 3, height := 2
    data := [[true, false], [false, false], [false, true]] }

/-- A 1×1 grid with its single cell False. -/
def exampleGrid11 : Grid :=
  { width := 1, height := 1, data := [[false]] }

/-! ## Game state

`GameStateData` from game.py, restricted to the fields the pacman.py rule
engine reads or writes.  `layout` is shared between snapshots and never
mutated; only its `walls` grid is consulted by the rule engine, so the model
stores the walls directly.  Python's `_eaten` list is shared by reference
between a snapshot and its copy (`self._eaten = prevState._eaten` in
`GameStateData.__init__`), and `GhostRules.collide` mutates that list in
place; the model therefore keeps all `_eaten` lists in an explicit heap and
stores in the snapshot only the index `eatenRef` of its list. -/

/-- The heap of `_eaten` lists. -/
abbrev Heap : Type := List (List Bool)

/-- One `GameStateData` snapshot (pacman.py wraps it unchanged in
`GameState`, adding only accessors). -/
structure GameStateData where
  food : Grid
  capsules : List (ℤ × ℤ)
  agentStates : List AgentState
  walls : Grid
  score : ℤ
  scoreChange : ℤ
  win : Bool
  lose : Bool
  eatenRef : ℕ
  foodEaten : Option (ℤ × ℤ)
  foodAdded : Option (ℤ × ℤ)
  capsuleEaten : Option (ℤ × ℤ)
  agentMoved : Option ℕ
deriving DecidableEq

/-- `GameStateData.__init__(prevState)` from game.py: `food.shallowCopy()`,
`capsules[:]` and `copyAgentStates` all produce the same values; `_eaten` is
aliased (same `eatenRef`); `layout` and `score` are carried over; then the
diff fields are reset: `_foodEaten = _foodAdded = _capsuleEaten =
_agentMoved = None`, `_lose = _win = False`, `scoreChange = 0`. -/
def copyData (d : GameStateData) : GameStateData :=
  { d with
    scoreChange := 0
    win := false
    lose := false
    foodEaten := none
    foodAdded := none
    capsuleEaten := none
    agentMoved := none }

/-- Constants from pacman.py. -/
def SCARED_TIME : ℤ := 40

/-- `COLLISION_TOLERANCE = 0.7` from pacman.py. -/
def COLLISION_TOLERANCE : ℚ := mkRat 7 10

/-- `TIME_PENALTY = 1` from pacman.py. -/
def TIME_PENALTY : ℤ := 1

/-- `PacmanRules.PACMAN_SPEED = 1` from pacman.py. -/
def PACMAN_SPEED : ℚ := 1

/-- `GhostRules.GHOST_SPEED = 1.0` from pacman.py. -/
def GHOST_SPEED : ℚ := 1

/-- `Actions.TOLERANCE = .001` from game.py. -/
def TOLERANCE : ℚ := mkRat 1 1000

/-- The wall-testing loop of `Actions.getPossibleActions` from game.py, over
`Actions._directionsAsList`, accumulating the non-wall directions in
order. -/
def possibleLoop (walls : Grid) (xInt yInt : ℤ) :
    List (Direction × ℤ × ℤ) → List Direction → Except String (List Direction)
  | [], possible => .ok possible
  | dv :: rest, possible =>
    match walls.get (xInt + dv.2.1) (yInt + dv.2.2) with
    | .error e => .error e
    | .ok w => possibleLoop walls xInt yInt rest (if w then possible else possible ++ [dv.1])

/-- `Actions.getPossibleActions` from game.py: off the grid (more than
TOLERANCE from the rounded point) the only action is to continue straight;
on the grid, every direction whose destination cell is not a wall (including
Stop, whose destination is the current cell). -/
def getPossibleActions (config : Configuration) (walls : Grid) : Except String (List Direction) :=
  let x := config.pos.1
  let y := config.pos.2
  let xInt := pyInt (qAdd x half)
  let yInt := pyInt (qAdd y half)
  if qAdd (qAbs (qSub x (xInt : ℚ))) (qAbs (qSub y (yInt : ℚ))) > TOLERANCE then
    .ok [config.direction]
  else
    possibleLoop walls xInt yInt directionsAsList []

/-- `GameState.getGhostState` from pacman.py: rejects index 0 and indices
past the agent list before reading the agent. -/
def getGhostState (d : GameStateData) (agentIndex : ℕ) : Except String AgentState :=
  if agentIndex = 0 ∨ agentIndex ≥ d.agentStates.length then
    .error "Invalid index passed to getGhostState"
  else pyIndexNat d.agentStates agentIndex

/-- `PacmanRules.getLegalActions` from pacman.py. -/
def pacmanLegalActions (d : GameStateData) : Except String (List Direction) :=
  match pyIndexNat d.agentStates 0 with
  | .error e => .error e
  | .ok ps => getPossibleActions ps.configuration d.walls

/-- The filtering steps of `GhostRules.getLegalActions` from pacman.py:
`possibleActions.remove(STOP)` when present, then
`possibleActions.remove(reverse)` when present and not the only action left
(Python `list.remove` deletes the first occurrence, i.e. `List.erase`). -/
def removeStopReverse (reverse : Direction) (possibleActions : List Direction) : List Direction :=
  let p1 := if Direction.stop ∈ possibleActions
            then possibleActions.erase Direction.stop else possibleActions
  if reverse ∈ p1 ∧ p1.length > 1 then p1.erase reverse else p1

/-- `GhostRules.getLegalActions` from pacman.py: remove Stop; remove the
reverse of the current facing unless it is the only remaining action. -/
def ghostLegalActions (d : GameStateData) (ghostIndex : ℕ) : Except String (List Direction) :=
  match getGhostState d ghostIndex with
  | .error e => .error e
  | .ok gs =>
    match getPossibleActions gs.configuration d.walls with
    | .error e => .error e
    | .ok possibleActions =>
      .ok (removeStopReverse (reverseDirection gs.configuration.direction) possibleActions)

/-- `GameState.getLegalActions` from pacman.py: empty on a terminal state,
else dispatch on the agent role. -/
def getLegalActions (d : GameStateData) (agentIndex : ℕ) : Except String (List Direction) :=
  if d.win || d.lose then .ok []
  else if agentIndex = 0 then pacmanLegalActions d
  else ghostLegalActions d agentIndex

/-- Replace agent `i` (Python mutates `state.data.agentStates[i]` in place;
agent states are freshly copied per transition, so this is value update). -/
def setAgent (d : GameStateData) (i : ℕ) (a : AgentState) : GameStateData :=
  { d with agentStates := d.agentStates.set i a }

/-- `PacmanRules.consume` from pacman.py: eat the food cell under the
position (copy-on-write on the food grid, +10, win +500 when the grid
empties and the state has not already lost), then eat a capsule at the
position (remove it and scare every ghost). -/
def consume (position : ℤ × ℤ) (d : GameStateData) : Except String GameStateData :=
  match d.food.get position.1 position.2 with
  | .error e => .error e
  | .ok hasFood =>
    let step1 : Except String GameStateData :=
      if hasFood then
        match (d.food.copy).set position.1 position.2 false with
        | .error e => .error e
        | .ok food2 =>
          let d2 := { d with scoreChange := d.scoreChange + 10, food := food2,
                             foodEaten := some position }
          let numFood := d2.food.count
          if numFood = 0 ∧ d2.lose = false then
            .ok { d2 with scoreChange := d2.scoreChange + 500, win := true }
          else .ok d2
      else .ok d
    match step1 with
    | .error e => .error e
    | .ok d3 =>
      if position ∈ d3.capsules then
        .ok { d3 with
              capsules := d3.capsules.erase position
              capsuleEaten := some position
              agentStates := d3.agentStates.mapIdx
                (fun i a => if 1 ≤ i then { a with scaredTimer := SCARED_TIME } else a) }
      else .ok d3

/-- `PacmanRules.applyAction` from pacman.py: validate against the legal
set, move at `PACMAN_SPEED`, and consume at the rounded landing point when
it is within 0.5 of the continuous position. -/
def pacmanApplyAction (d : GameStateData) (action : Direction) : Except String GameStateData :=
  match pacmanLegalActions d with
  | .error e => .error e
  | .ok legal =>
    if action ∈ legal then
      match pyIndexNat d.agentStates 0 with
      | .error e => .error e
      | .ok pacmanState =>
        let vector := directionToVector action PACMAN_SPEED
        let conf2 := pacmanState.configuration.generateSuccessor vector
        let d2 := setAgent d 0 { pacmanState with configuration := conf2 }
        let next := conf2.pos
        let nearest := nearestPoint next
        if manhattanDistance (ratPair nearest) next ≤ half then consume nearest d2
        else .ok d2
    else .error ("Illegal action")

/-- `GhostRules.applyAction` from pacman.py: validate, halve the speed while
scared, move. -/
def ghostApplyAction (d : GameStateData) (action : Direction) (ghostIndex : ℕ) :
    Except String GameStateData :=
  match ghostLegalActions d ghostIndex with
  | .error e => .error e
  | .ok legal =>
    if action ∈ legal then
      match pyIndexNat d.agentStates ghostIndex with
      | .error e => .error e
      | .ok ghostState =>
        let speed := if ghostState.scaredTimer > 0 then qHalf GHOST_SPEED else GHOST_SPEED
        let vector := directionToVector action speed
        let conf2 := ghostState.configuration.generateSuccessor vector
        .ok (setAgent d ghostIndex { ghostState with configuration := conf2 })
    else .error ("Illegal ghost action")

/-- `GhostRules.decrementTimer` from pacman.py: when the timer is exactly 1
the position is first snapped to the nearest grid point, then the timer is
set to `max(0, timer - 1)`. -/
def decrementTimer (ghostState : AgentState) : AgentState :=
  let timer := ghostState.scaredTimer
  let gs2 :=
    if timer = 1 then
      { ghostState with configuration :=
          { ghostState.configuration with pos := ratPair (nearestPoint ghostState.configuration.pos) } }
    else ghostState
  { gs2 with scaredTimer := max 0 (timer - 1) }

/-- `GhostRules.canKill` from pacman.py. -/
def canKill (pacmanPosition ghostPosition : ℚ × ℚ) : Bool :=
  manhattanDistance ghostPosition pacmanPosition ≤ COLLISION_TOLERANCE

/-- Write `_eaten[i] = True` on the list the snapshot references
(`state.data._eaten[agentIndex] = True` in `GhostRules.collide`). -/
def heapSetEaten (h : Heap) (r i : ℕ) : Except String Heap :=
  match (h : List (List Bool))[r]? with
  | some l =>
    if i < l.length then .ok (List.set (h : List (List Bool)) r (l.set i true))
    else .error "list assignment index out of range"
  | none => .error "dangling eaten reference"

/-- `GhostRules.collide` from pacman.py.  Python passes the ghost's
`AgentState` object; the model passes its index and reads the same value. -/
def collide (h : Heap) (d : GameStateData) (agentIndex : ℕ) : Except String (Heap × GameStateData) :=
  match pyIndexNat d.agentStates agentIndex with
  | .error e => .error e
  | .ok ghostState =>
    if ghostState.scaredTimer > 0 then
      let d2 := { setAgent d agentIndex
                    { ghostState with configuration := ghostState.start, scaredTimer := 0 }
                  with scoreChange := d.scoreChange + 200 }
      match heapSetEaten h d.eatenRef agentIndex with
      | .error e => .error e
      | .ok h2 => .ok (h2, d2)
    else
      if d.win = false then
        .ok (h, { d with scoreChange := d.scoreChange - 500, lose := true })
      else .ok (h, d)

/-- The loop of `GhostRules.checkDeath` over ghost indices after Pacman's
move (`for index in range(1, len(agentStates))`). -/
def checkDeathLoop (h : Heap) (d : GameStateData) (pacmanPosition : ℚ × ℚ) :
    List ℕ → Except String (Heap × GameStateData)
  | [] => .ok (h, d)
  | i :: rest =>
    match pyIndexNat d.agentStates i with
    | .error e => .error e
    | .ok ghostState =>
      if canKill pacmanPosition ghostState.configuration.pos then
        match collide h d i with
        | .error e => .error e
        | .ok (h2, d2) => checkDeathLoop h2 d2 pacmanPosition rest
      else checkDeathLoop h d pacmanPosition rest

/-- `GhostRules.checkDeath` from pacman.py: after Pacman's move every ghost
is checked (in index order) against Pacman's position, read once up front;
after a ghost's own move only that ghost is checked. -/
def checkDeath (h : Heap) (d : GameStateData) (agentIndex : ℕ) : Except String (Heap × GameStateData) :=
  match pyIndexNat d.agentStates 0 with
  | .error e => .error e
  | .ok pacmanState =>
    let pacmanPosition := pacmanState.configuration.pos
    if agentIndex = 0 then
      checkDeathLoop h d pacmanPosition (List.range' 1 (d.agentStates.length - 1))
    else
      match pyIndexNat d.agentStates agentIndex with
      | .error e => .error e
      | .ok ghostState =>
        if canKill pacmanPosition ghostState.configuration.pos then collide h d agentIndex
        else .ok (h, d)

/-- Apply `GhostRules.decrementTimer` to agent `agentIndex` in place. -/
def decrementAgentTimer (d : GameStateData) (agentIndex : ℕ) : Except String GameStateData :=
  match pyIndexNat d.agentStates agentIndex with
  | .error e => .error e
  | .ok gs => .ok (setAgent d agentIndex (decrementTimer gs))

/-- `GameState.generateSuccessor` from pacman.py: refuse terminal states;
copy the snapshot; on Pacman's turn allocate a fresh `_eaten` list and apply
`PacmanRules.applyAction`, then charge `TIME_PENALTY`; on a ghost's turn
apply `GhostRules.applyAction`, then decrement that ghost's scared timer;
resolve collisions with `checkDeath`; finally record the mover and fold
`scoreChange` into the score. -/
def generateSuccessor (h : Heap) (st : GameStateData) (agentIndex : ℕ) (action : Direction) :
    Except String (Heap × GameStateData) :=
  if st.win || st.lose then .error "Cannot generate a successor of a terminal state."
  else
    let d := copyData st
    let afterApply : Except String (Heap × GameStateData) :=
      if agentIndex = 0 then
        let h2 := (h : List (List Bool)) ++ [List.replicate d.agentStates.length false]
        let d2 := { d with eatenRef := (h : List (List Bool)).length }
        match pacmanApplyAction d2 action with
        | .error e => .error e
        | .ok d3 => .ok (h2, { d3 with scoreChange := d3.scoreChange + (-TIME_PENALTY) })
      else
        match ghostApplyAction d action agentIndex with
        | .error e => .error e
        | .ok d2 =>
          match decrementAgentTimer d2 agentIndex with
          | .error e => .error e
          | .ok d3 => .ok (h, d3)
    match afterApply with
    | .error e => .error e
    | .ok (h3, d4) =>
      match checkDeath h3 d4 agentIndex with
      | .error e => .error e
      | .ok (h4, d5) =>
        .ok (h4, { d5 with agentMoved := some agentIndex, score := d5.score + d5.scoreChange })

/-! ## Concrete boards -/

/-- An agent standing at integer point `p` facing `dir`, with its start
configuration there, `isPacman` flag `pac` and scared timer `t`. -/
def mkAgent (p : ℤ × ℤ) (dir : Direction) (pac : Bool) (t : ℤ) : AgentState :=
  { start := { pos := ratPair p, direction := .stop }
    configuration := { pos := ratPair p, direction := dir }
    isPacman := pac
    scaredTimer := t
    numCarrying := 0
    numReturned := 0 }

/-- Walls of a 4×3 board whose open cells are (1,1) and (2,1). -/
def wallsCorridorEW : Grid :=
  { width := 4, height := 3
    data := [[true, true, true], [true, false, true], [true, false, true], [true, true, true]] }

/-- A 4×3 food grid with a single pellet at (2,1). -/
def foodOnePellet : Grid :=
  { width := 4, height := 3
    data := [[false, false, false], [false, false, false], [false, true, false], [false, false, false]] }

/-- Spec scenario 2: Pacman at (1,1), one pellet at (2,1), score 0, no
ghosts. -/
def lastFoodState : GameStateData :=
  { food := foodOnePellet
    capsules := []
    agentStates := [mkAgent (1, 1) .stop true 0]
    walls := wallsCorridorEW
    score := 0
    scoreChange := 0
    win := false
    lose := false
    eatenRef := 0
    foodEaten := none
    foodAdded := none
    capsuleEaten := none
    agentMoved := none }

/-- The heap holding `lastFoodState`'s `_eaten` list. -/
def lastFoodHeap : Heap := [[false]]

/-- Walls of a 3×5 board whose open cells are the column (1,1), (1,2),
(1,3). -/
def wallsCorridorNS : Grid :=
  { width := 3, height := 5
    data := [[true, true, true, true, true],
             [true, false, false, false, true],
             [true, true, true, true, true]] }

/-- An empty 3×5 food grid. -/
def foodEmptyNS : Grid :=
  { width := 3, height := 5
    data := [[false, false, false, false, false],
             [false, false, false, false, false],
             [false, false, false, false, false]] }

/-- A scared ghost (timer 5) at (1,2) facing South, one step above Pacman at
(1,1). -/
def scaredGhostState : GameStateData :=
  { food := foodEmptyNS
    capsules := []
    agentStates := [mkAgent (1, 1) .stop true 0, mkAgent (1, 2) .south false 5]
    walls := wallsCorridorNS
    score := 0
    scoreChange := 0
    win := false
    lose := false
    eatenRef := 0
    foodEaten := none
    foodAdded := none
    capsuleEaten := none
    agentMoved := none }

/-- The heap holding `scaredGhostState`'s `_eaten` list. -/
def scaredGhostHeap : Heap := [[false, false]]

/-- Walls of a 3×3 dead end: only (1,1) and its southern neighbor (1,0) are
open. -/
def wallsDeadEnd : Grid :=
  { width := 3, height := 3
    data := [[true, true, true], [false, false, true], [true, true, true]] }

/-- Spec scenario 6: a ghost facing North at the dead end (1,1) whose only
open neighbor (1,0) lies behind it. -/
def deadEndState : GameStateData :=
  { food := Grid.init 3 3
    capsules := []
    agentStates := [mkAgent (1, 0) .stop true 0, mkAgent (1, 1) .north false 0]
    walls := wallsDeadEnd
    score := 0
    scoreChange := 0
    win := false
    lose := false
    eatenRef := 0
    foodEaten := none
    foodAdded := none
    capsuleEaten := none
    agentMoved := none }

/-- A state already won (to exercise the terminal-state contract). -/
def wonState : GameStateData :=
  { lastFoodState with win := true }

/-- A scared ghost (timer 5) already within collision range: at (1, 3/2),
one half-step above Pacman at (1,1). -/
def ghostNear : AgentState :=
  { mkAgent (1, 2) .south false 5 with
    configuration := { pos := ((1 : ℚ), mkRat 3 2), direction := .south } }

/-- `scaredGhostState` with the ghost already at (1, 3/2): collision
resolution is about to fire. -/
def collisionState : GameStateData :=
  { scaredGhostState with agentStates := [mkAgent (1, 1) .stop true 0, ghostNear] }

/-- `collisionState` with a ghost that is not scared (timer 0). -/
def collisionStateCalm : GameStateData :=
  { collisionState with
    agentStates := [mkAgent (1, 1) .stop true 0, { ghostNear with scaredTimer := 0 }]
    score := 100 }

/-- Project the successor's score out of a transition result. -/
def resultScore (r : Except String (Heap × GameStateData)) : Option ℤ :=
  match r with
  | .ok (_, d) => some d.score
  | .error _ => none

/-- Project agent `i`'s scared timer out of a transition result. -/
def resultTimer (r : Except String (Heap × GameStateData)) (i : ℕ) : Option ℤ :=
  match r with
  | .ok (_, d) => (d.agentStates[i]?).map AgentState.scaredTimer
  | .error _ => none

/-- Project the final heap out of a transition result. -/
def resultHeap (r : Except String (Heap × GameStateData)) : Option Heap :=
  match r with
  | .ok (h, _) => some h
  | .error _ => none

/-- Project the successor's win flag out of a transition result. -/
def resultWin (r : Except String (Heap × GameStateData)) : Option Bool :=
  match r with
  | .ok (_, d) => some d.win
  | .error _ => none

/-- Project agent `i`'s state out of a transition result. -/
def resultAgent (r : Except String (Heap × GameStateData)) (i : ℕ) : Option AgentState :=
  match r with
  | .ok (_, d) => d.agentStates[i]?
  | .error _ => none

/-- Project agent `j`'s legal actions in the successor out of a transition
result. -/
def resultLegal (r : Except String (Heap × GameStateData)) (j : ℕ) :
    Option (Except String (List Direction)) :=
  match r with
  | .ok (_, d) => some (getLegalActions d j)
  | .error _ => none

/-- `scaredGhostState` with the ghost two cells above Pacman, facing North
at (1,3): its forced move (South at half speed) ends at (1, 5/2), outside
collision range. -/
def farGhostState : GameStateData :=
  { scaredGhostState with
    agentStates := [mkAgent (1, 1) .stop true 0, mkAgent (1, 3) .north false 5] }

/-- The 4×3 food grid with every pellet cleared. -/
def foodCleared : Grid :=
  { width := 4, height := 3
    data := [[false, false, false], [false, false, false], [false, false, false],
             [false, false, false]] }

/-- `lastFoodState` with no food anywhere: an eventless Pacman move. -/
def noFoodState : GameStateData :=
  { lastFoodState with food := foodCleared }

example : exampleGrid32.packBits = .error floatIndexMsg := by decide
example : roundTrip exampleGrid32 = .error floatIndexMsg := by decide
example : exampleGrid11.packBits = .error floatIndexMsg := by decide

example :
    resultScore (generateSuccessor lastFoodHeap lastFoodState 0 .east) = some 509 := by decide

example :
    resultWin (generateSuccessor lastFoodHeap lastFoodState 0 .east) = some true := by decide

example :
    resultTimer (generateSuccessor scaredGhostHeap scaredGhostState 1 .south) 1 = some 0 := by
  decide

example :
    resultHeap (generateSuccessor scaredGhostHeap scaredGhostState 1 .south) =
      some [[false, true]] := by decide

example : ghostLegalActions deadEndState 1 = .ok [.south] := by decide

/-! ## Bridge lemmas: the reducible arithmetic agrees with ℚ -/

theorem qAdd_eq (a b : ℚ) : qAdd a b = a + b := by
  have ha : ((a.den : ℚ)) ≠ 0 := by exact_mod_cast a.den_ne_zero
  have hb : ((b.den : ℚ)) ≠ 0 := by exact_mod_cast b.den_ne_zero
  rw [qAdd, Rat.mkRat_eq_div]
  push_cast
  conv_rhs => rw [← Rat.num_div_den a, ← Rat.num_div_den b, div_add_div _ _ ha hb]
  congr 1
  ring

theorem qSub_eq (a b : ℚ) : qSub a b = a - b := by
  have ha : ((a.den : ℚ)) ≠ 0 := by exact_mod_cast a.den_ne_zero
  have hb : ((b.den : ℚ)) ≠ 0 := by exact_mod_cast b.den_ne_zero
  rw [qSub, Rat.mkRat_eq_div]
  push_cast
  conv_rhs => rw [← Rat.num_div_den a, ← Rat.num_div_den b, div_sub_div _ _ ha hb]
  congr 1
  ring

theorem qMul_eq (a b : ℚ) : qMul a b = a * b := by
  rw [qMul, Rat.mkRat_eq_div]
  push_cast
  conv_rhs => rw [← Rat.num_div_den a, ← Rat.num_div_den b, div_mul_div_comm]

theorem qHalf_eq (a : ℚ) : qHalf a = a / 2 := by
  rw [qHalf, Rat.mkRat_eq_div]
  push_cast
  conv_rhs => rw [← Rat.num_div_den a, div_div]

theorem qAbs_eq (a : ℚ) : qAbs a = |a| := by
  rw [qAbs, Rat.mkRat_eq_div]
  rcases le_or_lt 0 a.num with h | h
  · have h2 : (Int.ofNat a.num.natAbs) = a.num := Int.natAbs_of_nonneg h
    rw [h2, abs_of_nonneg (by rw [← Rat.num_nonneg]; exact h)]
    exact Rat.num_div_den a
  · have h2 : (Int.ofNat a.num.natAbs) = -a.num := Int.ofNat_natAbs_of_nonpos h.le
    rw [h2, abs_of_neg (by rw [← Rat.num_neg]; exact h)]
    push_cast
    rw [neg_div, Rat.num_div_den a]

theorem half_eq : half = 1/2 := by
  rw [half, Rat.mkRat_eq_div]
  norm_num

theorem tolerance_eq : TOLERANCE = 1/1000 := by
  rw [TOLERANCE, Rat.mkRat_eq_div]
  norm_num

theorem collision_tolerance_eq : COLLISION_TOLERANCE = 7/10 := by
  rw [COLLISION_TOLERANCE, Rat.mkRat_eq_div]
  norm_num

theorem manhattanDistance_eq (a b : ℚ × ℚ) :
    manhattanDistance a b = |a.1 - b.1| + |a.2 - b.2| := by
  rw [manhattanDistance, qAdd_eq, qSub_eq, qSub_eq, qAbs_eq, qAbs_eq]

theorem pyInt_eq_floor (q : ℚ) (h : 0 ≤ q) : pyInt q = ⌊q⌋ := by
  rw [pyInt, Int.tdiv_eq_ediv (by exact_mod_cast Rat.num_nonneg.mpr h) (by positivity),
    Rat.floor_def]

theorem pyInt_int_add_half (n : ℤ) (h : 0 ≤ n) : pyInt (qAdd (n : ℚ) half) = n := by
  have hn : (0:ℚ) ≤ (n:ℚ) := by exact_mod_cast h
  rw [qAdd_eq, half_eq, pyInt_eq_floor _ (by linarith), Int.floor_int_add]
  norm_num

theorem nearestPoint_int (p : ℤ × ℤ) (h1 : 0 ≤ p.1) (h2 : 0 ≤ p.2) :
    nearestPoint (ratPair p) = p := by
  rw [nearestPoint, ratPair]
  rw [pyInt_int_add_half p.1 h1, pyInt_int_add_half p.2 h2]

theorem manhattanDistance_self (a : ℚ × ℚ) : manhattanDistance a a = 0 := by
  rw [manhattanDistance_eq]
  simp

/-! ## Claim theorems -/

/-- C1: the claim states that `unpack(pack(g)) == g` for every grid.  It is
refuted by the code: `_cellIndexToPosition` computes `x = index / height`
with Python 3 true division, so `x` is a `float` and the cell read
`self[x][y]` in `packBits` raises `TypeError` on every grid with at least
one cell.  On the spec's own scenario grid (3×2, cells (0,0) and (2,1)
true), `packBits` — and hence the round trip — raises instead of returning
the grid. -/
theorem claim_C1_roundTrip_crashes :
    roundTrip exampleGrid32 = .error floatIndexMsg ∧
      exampleGrid32.packBits = .error floatIndexMsg := by
  decide

/-- C9: the claim describes the output format of `packBits`.  The code never
produces it: on a 1×1 grid `packBits` raises `TypeError` (float list index
from `index / height` true division) instead of returning the two dimension
integers followed by ceil(1/30) = 1 packed word. -/
theorem claim_C9_packBits_crashes :
    exampleGrid11.packBits = .error floatIndexMsg := by
  decide

/-- C4: on every state whose win or lose flag is set, `generateSuccessor`
fails with the terminal-state error for every agent index and action, and
`getLegalActions` returns the empty list for every agent index. -/
theorem claim_C4_terminal_state (h : Heap) (d : GameStateData) (i : ℕ) (a : Direction)
    (hterm : d.win = true ∨ d.lose = true) :
    generateSuccessor h d i a = .error "Cannot generate a successor of a terminal state." ∧
      getLegalActions d i = .ok [] := by
  have hw : (d.win || d.lose) = true := by
    rcases hterm with h1 | h1 <;> simp [h1]
  constructor
  · rw [generateSuccessor, if_pos hw]
  · rw [getLegalActions, if_pos hw]

/-- Witness for C4 at a concrete won state. -/
theorem claim_C4_terminal_state_witness :
    generateSuccessor lastFoodHeap wonState 0 .east =
        .error "Cannot generate a successor of a terminal state." ∧
      getLegalActions wonState 0 = .ok [] :=
  claim_C4_terminal_state lastFoodHeap wonState 0 .east (Or.inl (by decide))

/-- C2 counterexample: in the spec's scenario (one remaining food cell at
Pacman's next position, score 0) the move that wins the game yields score
509, not the claimed 510, because Pacman's turn also pays the −1 time
penalty. -/
theorem claim_C2_counterexample :
    resultScore (generateSuccessor lastFoodHeap lastFoodState 0 .east) = some 509 ∧
      resultWin (generateSuccessor lastFoodHeap lastFoodState 0 .east) = some true ∧
      resultScore (generateSuccessor lastFoodHeap lastFoodState 0 .east) ≠ some 510 := by
  decide

/-- C6 counterexample: a scared ghost (timer 5) that steps within the
collision tolerance of Pacman on its own turn ends the transition with
scared timer 0, not the claimed 5 − 1 = 4: after the decrement to 4,
`GhostRules.collide` resets the timer to 0. -/
theorem claim_C6_counterexample :
    resultTimer (generateSuccessor scaredGhostHeap scaredGhostState 1 .south) 1 = some 0 ∧
      resultTimer (generateSuccessor scaredGhostHeap scaredGhostState 1 .south) 1 ≠ some 4 := by
  decide

/-- C8: the claim states that `generateSuccessor` leaves every field of the
predecessor snapshot unchanged.  It is refuted by the code: the copy
constructor aliases `_eaten` (`self._eaten = prevState._eaten`), and on a
ghost turn with a scared collision `GhostRules.collide` writes `True` into
that shared list, so the predecessor's eaten markers change.  Concretely:
`scaredGhostState` references heap cell 0, whose value before the call is
`[false, false]`; after the ghost's move the cell holds `[false, true]`. -/
theorem claim_C8_eaten_mutated :
    scaredGhostState.eatenRef = 0 ∧
      scaredGhostHeap = [[false, false]] ∧
      resultHeap (generateSuccessor scaredGhostHeap scaredGhostState 1 .south) =
        some [[false, true]] := by
  decide

/-- The wall-testing loop only ever appends directions drawn, in order, from
the remaining direction list. -/
theorem possibleLoop_sublist (walls : Grid) (xi yi : ℤ) :
    ∀ (l : List (Direction × ℤ × ℤ)) (acc acts : List Direction),
      possibleLoop walls xi yi l acc = .ok acts →
      ∃ extra, acts = acc ++ extra ∧ extra.Sublist (l.map Prod.fst) := by
  intro l
  induction l with
  | nil =>
    intro acc acts h
    rw [possibleLoop] at h
    cases h
    exact ⟨[], by simp⟩
  | cons dv rest ih =>
    intro acc acts h
    rw [possibleLoop] at h
    cases hw : walls.get (xi + dv.2.1) (yi + dv.2.2) with
    | error e => rw [hw] at h; cases h
    | ok w =>
      rw [hw] at h
      cases w with
      | true =>
        simp only [if_true] at h
        obtain ⟨extra, he, hs⟩ := ih acc acts h
        exact ⟨extra, he, hs.cons dv.1⟩
      | false =>
        simp only [Bool.false_eq_true, if_false] at h
        obtain ⟨extra, he, hs⟩ := ih (acc ++ [dv.1]) acts h
        refine ⟨dv.1 :: extra, by simpa using he, ?_⟩
        exact hs.cons₂ dv.1

/-- A successful `getPossibleActions` result has no duplicate directions. -/
theorem getPossibleActions_nodup (c : Configuration) (walls : Grid) (acts : List Direction)
    (h : getPossibleActions c walls = .ok acts) : acts.Nodup := by
  rw [getPossibleActions] at h
  split at h
  · cases h
    simp
  · obtain ⟨extra, he, hs⟩ := possibleLoop_sublist walls _ _ directionsAsList [] acts h
    have hall : (directionsAsList.map Prod.fst).Nodup := by decide
    subst he
    simpa using hall.sublist hs

/-- Filtering never leaves a Stop behind (on a duplicate-free list). -/
theorem removeStopReverse_no_stop (reverse : Direction) (p : List Direction)
    (hnd : p.Nodup) : Direction.stop ∉ removeStopReverse reverse p := by
  rw [removeStopReverse]
  set p1 := (if Direction.stop ∈ p then p.erase Direction.stop else p) with hp1
  have h1 : Direction.stop ∉ p1 := by
    rw [hp1]
    split
    · intro hmem
      rcases (List.Nodup.mem_erase_iff hnd).mp hmem with ⟨hne, _⟩
      exact hne rfl
    · assumption
  split
  · intro hmem
    exact h1 (List.erase_subset _ _ hmem)
  · exact h1

/-- If the reverse direction survives the filtering (on a duplicate-free
list), it was the only action left. -/
theorem removeStopReverse_reverse (reverse : Direction) (p : List Direction)
    (hnd : p.Nodup) (hmem : reverse ∈ removeStopReverse reverse p) :
    removeStopReverse reverse p = [reverse] := by
  rw [removeStopReverse] at hmem ⊢
  set p1 := (if Direction.stop ∈ p then p.erase Direction.stop else p) with hp1
  have hnd1 : p1.Nodup := by
    rw [hp1]
    split
    · exact hnd.erase _
    · exact hnd
  by_cases hc : reverse ∈ p1 ∧ p1.length > 1
  · rw [if_pos hc] at hmem
    rcases (List.Nodup.mem_erase_iff hnd1).mp hmem with ⟨hne, _⟩
    exact absurd rfl hne
  · rw [if_neg hc] at hmem ⊢
    have hlen : ¬ p1.length > 1 := fun hl => hc ⟨hmem, hl⟩
    clear_value p1
    cases p1 with
    | nil => cases hmem
    | cons a t =>
      cases t with
      | nil =>
        rcases List.mem_singleton.mp hmem with rfl
        rfl
      | cons b t2 =>
        exact absurd (by simp only [List.length_cons]; omega) hlen

/-- A successful Python read locates a normalized index holding the value. -/
theorem pyIndex_ok {α : Type} (l : List α) (i : ℤ) (a : α) (h : pyIndex l i = .ok a) :
    ∃ k, pyNorm l.length i = some k ∧ l[k]? = some a := by
  rw [pyIndex] at h
  cases hn : pyNorm l.length i with
  | none => rw [hn] at h; cases h
  | some k =>
    rw [hn] at h
    dsimp only at h
    cases hk : l[k]? with
    | none => rw [hk] at h; cases h
    | some b =>
      rw [hk] at h
      cases h
      exact ⟨k, rfl, hk⟩

/-- A successful Python write is `List.set` at the normalized index. -/
theorem pyListSet_ok {α : Type} (l : List α) (i : ℤ) (v : α) (l2 : List α)
    (h : pyListSet l i v = .ok l2) :
    ∃ k, pyNorm l.length i = some k ∧ l2 = l.set k v := by
  rw [pyListSet] at h
  cases hn : pyNorm l.length i with
  | none => rw [hn] at h; cases h
  | some k =>
    rw [hn] at h
    dsimp only at h
    cases h
    exact ⟨k, rfl, rfl⟩

/-- A normalized Python index is in range. -/
theorem pyNorm_lt (n : ℕ) (i : ℤ) (k : ℕ) (h : pyNorm n i = some k) : k < n := by
  rw [pyNorm] at h
  split at h <;> split at h <;> (try cases h) <;> omega

/-- Clearing one boolean cannot increase the count of `true`s. -/
theorem count_set_false_le (l : List Bool) (k : ℕ) :
    (l.set k false).count true ≤ l.count true := by
  induction l generalizing k with
  | nil => simp
  | cons a t ih =>
    cases k with
    | zero =>
      cases a <;> simp [List.set, List.count_cons]
    | succ k2 =>
      simp only [List.set, List.count_cons]
      have := ih k2
      omega

/-- Replacing one column with a column of no larger count cannot increase
the total count. -/
theorem sum_count_set_le (data : List (List Bool)) (k : ℕ) (col2 : List Bool)
    (hcol : ∀ col, data[k]? = some col → col2.count true ≤ col.count true) :
    ((data.set k col2).map (fun c => c.count true)).sum ≤
      (data.map (fun c => c.count true)).sum := by
  induction data generalizing k with
  | nil => simp
  | cons c t ih =>
    cases k with
    | zero =>
      simp only [List.set, List.map_cons, List.sum_cons]
      have := hcol c (by simp)
      omega
    | succ k2 =>
      simp only [List.set, List.map_cons, List.sum_cons]
      have := ih k2 (fun col hc => hcol col (by simpa using hc))
      omega

/-- A successful `Grid.set _ _ false` cannot increase the food count. -/
theorem gridSet_false_count_le (g : Grid) (x y : ℤ) (g2 : Grid)
    (h : g.set x y false = .ok g2) : g2.count ≤ g.count := by
  rw [Grid.set] at h
  cases hcol : pyIndex g.data x with
  | error e => rw [hcol] at h; cases h
  | ok col =>
    rw [hcol] at h
    dsimp only at h
    cases hset : pyListSet col y false with
    | error e => rw [hset] at h; cases h
    | ok col2 =>
      rw [hset] at h
      dsimp only at h
      cases hn : pyNorm g.data.length x with
      | none => rw [hn] at h; cases h
      | some k =>
        rw [hn] at h
        dsimp only at h
        cases h
        obtain ⟨k1, hk1, hl1⟩ := pyIndex_ok g.data x col hcol
        rw [hn] at hk1
        cases hk1
        obtain ⟨k2, _, hl2⟩ := pyListSet_ok col y false col2 hset
        rw [Grid.count, Grid.count]
        apply sum_count_set_le
        intro col3 hc3
        rw [hl1] at hc3
        cases hc3
        rw [hl2]
        exact count_set_false_le _ k2

/-- A successful `Grid.set _ _ false` never turns a cell from false to true:
any cell read as true afterwards was already true before. -/
theorem gridSet_false_no_new_true (g : Grid) (cx cy : ℤ) (g2 : Grid)
    (h : g.set cx cy false = .ok g2) :
    ∀ x y, g2.get x y = .ok true → g.get x y = .ok true := by
  rw [Grid.set] at h
  cases hcol : pyIndex g.data cx with
  | error e => rw [hcol] at h; cases h
  | ok col =>
    rw [hcol] at h
    dsimp only at h
    cases hset : pyListSet col cy false with
    | error e => rw [hset] at h; cases h
    | ok col2 =>
      rw [hset] at h
      dsimp only at h
      cases hn : pyNorm g.data.length cx with
      | none => rw [hn] at h; cases h
      | some k =>
        rw [hn] at h
        dsimp only at h
        cases h
        obtain ⟨k1, hk1, hcolk⟩ := pyIndex_ok g.data cx col hcol
        rw [hn] at hk1
        cases hk1
        obtain ⟨k2, hk2, hcol2⟩ := pyListSet_ok col cy false col2 hset
        intro x y hxy
        rw [Grid.get] at hxy
        dsimp only at hxy
        cases hox : pyIndex (g.data.set k col2) x with
        | error e => rw [hox] at hxy; cases hxy
        | ok colx =>
          rw [hox] at hxy
          obtain ⟨kx, hkx, hgx⟩ := pyIndex_ok _ x colx hox
          rw [List.length_set] at hkx
          by_cases hkk : kx = k
          · subst hkk
            have hklt : kx < g.data.length := pyNorm_lt _ _ _ hkx
            rw [List.getElem?_set_self hklt] at hgx
            cases hgx
            rw [hcol2] at hxy
            obtain ⟨ky, hky, hcy2⟩ := pyIndex_ok _ y true hxy
            rw [List.length_set] at hky
            by_cases hkyk : ky = k2
            · subst hkyk
              have hk2lt : ky < col.length := pyNorm_lt _ _ _ hky
              rw [List.getElem?_set_self hk2lt] at hcy2
              cases hcy2
            · rw [List.getElem?_set_ne (fun he => hkyk he.symm)] at hcy2
              rw [Grid.get]
              have hpx : pyIndex g.data x = .ok col := by
                rw [pyIndex, hkx]
                dsimp only
                rw [hcolk]
              rw [hpx]
              dsimp only
              rw [pyIndex, hky]
              dsimp only
              rw [hcy2]
          · rw [List.getElem?_set_ne (fun he => hkk he.symm)] at hgx
            rw [Grid.get]
            have hpx : pyIndex g.data x = .ok colx := by
              rw [pyIndex, hkx]
              dsimp only
              rw [hgx]
            rw [hpx]
            exact hxy

/-- `consume` never turns a food cell from false to true. -/
theorem consume_no_new (pos : ℤ × ℤ) (d d2 : GameStateData)
    (h : consume pos d = .ok d2) :
    ∀ x y, d2.food.get x y = .ok true → d.food.get x y = .ok true := by
  rw [consume] at h
  cases hget : d.food.get pos.1 pos.2 with
  | error e => rw [hget] at h; cases h
  | ok hasFood =>
    rw [hget] at h
    dsimp only at h
    have step : ∀ d3 : GameStateData,
        (if pos ∈ d3.capsules then
          (Except.ok { d3 with
            capsules := d3.capsules.erase pos
            capsuleEaten := some pos
            agentStates := d3.agentStates.mapIdx
              (fun i a => if 1 ≤ i then { a with scaredTimer := SCARED_TIME } else a) } :
            Except String GameStateData)
          else Except.ok d3) = .ok d2 → d2.food = d3.food := by
      intro d3 hd3
      split at hd3 <;> (cases hd3; rfl)
    cases hasFood with
    | false =>
      simp only [if_neg (Bool.false_ne_true)] at h
      rw [step d h]
      exact fun x y hxy => hxy
    | true =>
      simp only [if_pos rfl] at h
      cases hset : (d.food.copy).set pos.1 pos.2 false with
      | error e => rw [hset] at h; cases h
      | ok food2 =>
        rw [hset] at h
        dsimp only at h
        have hcell : ∀ x y, food2.get x y = .ok true → d.food.get x y = .ok true :=
          gridSet_false_no_new_true _ _ _ _ hset
        by_cases hwin : (food2.count = 0 ∧ d.lose = false)
        · rw [if_pos hwin] at h
          rw [step _ h]
          exact hcell
        · rw [if_neg hwin] at h
          rw [step _ h]
          exact hcell

/-- `consume` cannot increase the food count. -/
theorem consume_count (pos : ℤ × ℤ) (d d2 : GameStateData)
    (h : consume pos d = .ok d2) : d2.food.count ≤ d.food.count := by
  rw [consume] at h
  cases hget : d.food.get pos.1 pos.2 with
  | error e => rw [hget] at h; cases h
  | ok hasFood =>
    rw [hget] at h
    dsimp only at h
    have step : ∀ d3 : GameStateData,
        (if pos ∈ d3.capsules then
          (Except.ok { d3 with
            capsules := d3.capsules.erase pos
            capsuleEaten := some pos
            agentStates := d3.agentStates.mapIdx
              (fun i a => if 1 ≤ i then { a with scaredTimer := SCARED_TIME } else a) } :
            Except String GameStateData)
          else Except.ok d3) = .ok d2 → d2.food = d3.food := by
      intro d3 hd3
      split at hd3 <;> (cases hd3; rfl)
    cases hasFood with
    | false =>
      simp only [if_neg (Bool.false_ne_true)] at h
      rw [step d h]
    | true =>
      simp only [if_pos rfl] at h
      cases hset : (d.food.copy).set pos.1 pos.2 false with
      | error e => rw [hset] at h; cases h
      | ok food2 =>
        rw [hset] at h
        dsimp only at h
        have hle : food2.count ≤ d.food.count := gridSet_false_count_le _ _ _ _ hset
        by_cases hwin : (food2.count = 0 ∧ d.lose = false)
        · rw [if_pos hwin] at h
          rw [step _ h]
          simpa using hle
        · rw [if_neg hwin] at h
          rw [step _ h]
          simpa using hle

/-- `GhostRules.applyAction` only rewrites the moved ghost's agent state. -/
theorem ghostApplyAction_shape (d : GameStateData) (a : Direction) (i : ℕ) (d2 : GameStateData)
    (h : ghostApplyAction d a i = .ok d2) :
    ∃ gs, pyIndexNat d.agentStates i = .ok gs ∧
      d2 = setAgent d i
        { gs with
          configuration := gs.configuration.generateSuccessor
            (directionToVector a
              (if gs.scaredTimer > 0 then qHalf GHOST_SPEED else GHOST_SPEED)) } := by
  rw [ghostApplyAction] at h
  cases hl : ghostLegalActions d i with
  | error e => rw [hl] at h; cases h
  | ok legal =>
    rw [hl] at h
    dsimp only at h
    split at h
    · cases hgs : pyIndexNat d.agentStates i with
      | error e => rw [hgs] at h; cases h
      | ok gs =>
        rw [hgs] at h
        cases h
        exact ⟨gs, rfl, rfl⟩
    · cases h

/-- `decrementTimer` applied in place only rewrites that agent state. -/
theorem decrementAgentTimer_shape (d : GameStateData) (i : ℕ) (d2 : GameStateData)
    (h : decrementAgentTimer d i = .ok d2) :
    ∃ gs, pyIndexNat d.agentStates i = .ok gs ∧ d2 = setAgent d i (decrementTimer gs) := by
  rw [decrementAgentTimer] at h
  cases hgs : pyIndexNat d.agentStates i with
  | error e => rw [hgs] at h; cases h
  | ok gs =>
    rw [hgs] at h
    cases h
    exact ⟨gs, rfl, rfl⟩

/-- `collide` never touches the food grid. -/
theorem collide_food (h : Heap) (d : GameStateData) (i : ℕ) (h2 : Heap) (d2 : GameStateData)
    (hc : collide h d i = .ok (h2, d2)) : d2.food = d.food := by
  rw [collide] at hc
  cases hgs : pyIndexNat d.agentStates i with
  | error e => rw [hgs] at hc; cases hc
  | ok gs =>
    rw [hgs] at hc
    dsimp only at hc
    split at hc
    · cases hhe : heapSetEaten h d.eatenRef i with
      | error e => rw [hhe] at hc; cases hc
      | ok h3 =>
        rw [hhe] at hc
        cases hc
        rfl
    · split at hc <;> (cases hc; rfl)

/-- The collision loop never touches the food grid. -/
theorem checkDeathLoop_food (pac : ℚ × ℚ) :
    ∀ (idxs : List ℕ) (h : Heap) (d : GameStateData) (h2 : Heap) (d2 : GameStateData),
      checkDeathLoop h d pac idxs = .ok (h2, d2) → d2.food = d.food := by
  intro idxs
  induction idxs with
  | nil =>
    intro h d h2 d2 hc
    rw [checkDeathLoop] at hc
    cases hc
    rfl
  | cons j rest ih =>
    intro h d h2 d2 hc
    rw [checkDeathLoop] at hc
    cases hgs : pyIndexNat d.agentStates j with
    | error e => rw [hgs] at hc; cases hc
    | ok gs =>
      rw [hgs] at hc
      dsimp only at hc
      split at hc
      · cases hcol : collide h d j with
        | error e => rw [hcol] at hc; cases hc
        | ok pair =>
          rw [hcol] at hc
          have := ih _ _ _ _ hc
          rw [this, collide_food h d j pair.1 pair.2 (by rw [hcol])]
      · exact ih _ _ _ _ hc

/-- `checkDeath` never touches the food grid. -/
theorem checkDeath_food (h : Heap) (d : GameStateData) (i : ℕ) (h2 : Heap) (d2 : GameStateData)
    (hc : checkDeath h d i = .ok (h2, d2)) : d2.food = d.food := by
  rw [checkDeath] at hc
  cases hps : pyIndexNat d.agentStates 0 with
  | error e => rw [hps] at hc; cases hc
  | ok ps =>
    rw [hps] at hc
    dsimp only at hc
    split at hc
    · exact checkDeathLoop_food _ _ _ _ _ _ hc
    · cases hgs : pyIndexNat d.agentStates i with
      | error e => rw [hgs] at hc; cases hc
      | ok gs =>
        rw [hgs] at hc
        dsimp only at hc
        split at hc
        · exact collide_food _ _ _ _ _ hc
        · cases hc; rfl

/-- `PacmanRules.applyAction` cannot increase the food count. -/
theorem pacmanApplyAction_count (d : GameStateData) (a : Direction) (d2 : GameStateData)
    (h : pacmanApplyAction d a = .ok d2) : d2.food.count ≤ d.food.count := by
  rw [pacmanApplyAction] at h
  cases hl : pacmanLegalActions d with
  | error e => rw [hl] at h; cases h
  | ok legal =>
    rw [hl] at h
    dsimp only at h
    split at h
    · cases hps : pyIndexNat d.agentStates 0 with
      | error e => rw [hps] at h; cases h
      | ok ps =>
        rw [hps] at h
        dsimp only at h
        split at h
        · have hc := consume_count _ _ _ h
          simpa [setAgent] using hc
        · cases h; exact le_refl _
    · cases h

/-- `PacmanRules.applyAction` never turns a food cell from false to true. -/
theorem pacmanApplyAction_no_new (d : GameStateData) (a : Direction) (d2 : GameStateData)
    (h : pacmanApplyAction d a = .ok d2) :
    ∀ x y, d2.food.get x y = .ok true → d.food.get x y = .ok true := by
  rw [pacmanApplyAction] at h
  cases hl : pacmanLegalActions d with
  | error e => rw [hl] at h; cases h
  | ok legal =>
    rw [hl] at h
    dsimp only at h
    split at h
    · cases hps : pyIndexNat d.agentStates 0 with
      | error e => rw [hps] at h; cases h
      | ok ps =>
        rw [hps] at h
        dsimp only at h
        split at h
        · intro x y hxy
          have hc := consume_no_new _ _ _ h x y hxy
          simpa [setAgent] using hc
        · cases h
          exact fun x y hxy => hxy
    · cases h

/-- Moving from an integer point by a unit direction vector lands on the
translated integer point. -/
theorem qAdd_int_move (p v : ℤ) :
    qAdd ((p : ℤ) : ℚ) (qMul ((v : ℤ) : ℚ) PACMAN_SPEED) = ((p + v : ℤ) : ℚ) := by
  rw [qAdd_eq, qMul_eq, PACMAN_SPEED, mul_one]
  push_cast
  ring

/-- Pacman's move from an integer point lands on the translated integer
point. -/
theorem pacman_moved_pos (ps : AgentState) (a : Direction) (px py : ℤ)
    (hpos : ps.configuration.pos = ratPair (px, py)) :
    (ps.configuration.generateSuccessor (directionToVector a PACMAN_SPEED)).pos =
      ratPair (px + (directionVec a).1, py + (directionVec a).2) := by
  rw [Configuration.generateSuccessor, directionToVector, hpos, ratPair, ratPair]
  dsimp only
  rw [qAdd_int_move, qAdd_int_move]

/-- `PacmanRules.applyAction` from an aligned nonnegative integer point:
move, then consume at the landing cell. -/
theorem pacmanApplyAction_aligned (d : GameStateData) (a : Direction) (ps : AgentState)
    (legal : List Direction) (px py : ℤ)
    (hps : d.agentStates[0]? = some ps)
    (hpos : ps.configuration.pos = ratPair (px, py))
    (hcx : 0 ≤ px + (directionVec a).1) (hcy : 0 ≤ py + (directionVec a).2)
    (hlegal : pacmanLegalActions d = .ok legal) (hmem : a ∈ legal) :
    pacmanApplyAction d a =
      consume (px + (directionVec a).1, py + (directionVec a).2)
        (setAgent d 0 { ps with configuration :=
          ps.configuration.generateSuccessor (directionToVector a PACMAN_SPEED) }) := by
  rw [pacmanApplyAction, hlegal]
  dsimp only
  rw [if_pos hmem, pyIndexNat, hps]
  dsimp only
  rw [pacman_moved_pos ps a px py hpos]
  rw [nearestPoint_int _ hcx hcy, manhattanDistance_self]
  rw [if_pos (by rw [half_eq]; norm_num : (0 : ℚ) ≤ half)]

/-- `consume` on the last food cell (no capsule there): clears the cell,
adds 10 + 500, sets the win flag. -/
theorem consume_last_food (c : ℤ × ℤ) (dd : GameStateData) (food2 : Grid)
    (hget : dd.food.get c.1 c.2 = .ok true)
    (hset : dd.food.set c.1 c.2 false = .ok food2)
    (hcount : food2.count = 0)
    (hlose : dd.lose = false)
    (hcap : c ∉ dd.capsules) :
    consume c dd = .ok { dd with
      food := food2
      foodEaten := some c
      scoreChange := dd.scoreChange + 10 + 500
      win := true } := by
  rw [consume, hget]
  dsimp only
  rw [if_pos rfl]
  rw [show dd.food.copy = dd.food from rfl, hset]
  dsimp only
  rw [if_pos ⟨hcount, hlose⟩]
  dsimp only
  rw [if_neg hcap]

/-- `consume` away from food and capsules is the identity. -/
theorem consume_nothing (c : ℤ × ℤ) (dd : GameStateData)
    (hget : dd.food.get c.1 c.2 = .ok false)
    (hcap : c ∉ dd.capsules) :
    consume c dd = .ok dd := by
  rw [consume, hget]
  dsimp only
  rw [if_neg Bool.false_ne_true]
  dsimp only
  rw [if_neg hcap]

/-- `GhostRules.applyAction` under a successful legality check replaces the
ghost's configuration by the moved one. -/
theorem ghostApplyAction_ok (d : GameStateData) (a : Direction) (i : ℕ) (gs : AgentState)
    (legal : List Direction)
    (hgs : d.agentStates[i]? = some gs)
    (hlegal : ghostLegalActions d i = .ok legal)
    (hmem : a ∈ legal) :
    ghostApplyAction d a i = .ok (setAgent d i
      { gs with
        configuration := gs.configuration.generateSuccessor
          (directionToVector a
            (if gs.scaredTimer > 0 then qHalf GHOST_SPEED else GHOST_SPEED)) }) := by
  rw [ghostApplyAction, hlegal]
  dsimp only
  rw [if_pos hmem, pyIndexNat, hgs]

/-- `decrementTimer` applied in place at a valid index. -/
theorem decrementAgentTimer_ok (d : GameStateData) (i : ℕ) (g : AgentState)
    (hg : d.agentStates[i]? = some g) :
    decrementAgentTimer d i = .ok (setAgent d i (decrementTimer g)) := by
  rw [decrementAgentTimer, pyIndexNat, hg]

/-- The decremented timer is exactly `max 0 (timer - 1)`. -/
theorem decrementTimer_scaredTimer (g : AgentState) :
    (decrementTimer g).scaredTimer = max 0 (g.scaredTimer - 1) := rfl

/-- When the timer hits 0 from 1, the position snaps to the nearest grid
point first. -/
theorem decrementTimer_pos_snap (g : AgentState) (h : g.scaredTimer = 1) :
    (decrementTimer g).configuration.pos = ratPair (nearestPoint g.configuration.pos) := by
  rw [decrementTimer]
  dsimp only
  rw [if_pos h]

/-- Away from the 1-to-0 transition the position is untouched. -/
theorem decrementTimer_pos_id (g : AgentState) (h : g.scaredTimer ≠ 1) :
    (decrementTimer g).configuration.pos = g.configuration.pos := by
  rw [decrementTimer]
  dsimp only
  rw [if_neg h]

/-- The collision check after a ghost's move is a no-op when the ghost is
out of range. -/
theorem checkDeath_ghost_no_kill (h : Heap) (d : GameStateData) (i : ℕ)
    (ps gs : AgentState) (hi : i ≠ 0)
    (hps : d.agentStates[0]? = some ps)
    (hgs : d.agentStates[i]? = some gs)
    (hnk : canKill ps.configuration.pos gs.configuration.pos = false) :
    checkDeath h d i = .ok (h, d) := by
  rw [checkDeath, pyIndexNat, hps]
  dsimp only
  rw [if_neg hi, pyIndexNat, hgs]
  dsimp only
  rw [hnk]
  rfl

/-- The collision loop is a no-op when every listed ghost is out of range. -/
theorem checkDeathLoop_no_kill (pac : ℚ × ℚ) :
    ∀ (idxs : List ℕ) (h : Heap) (d : GameStateData),
      (∀ j ∈ idxs, ∃ gs, d.agentStates[j]? = some gs ∧
        canKill pac gs.configuration.pos = false) →
      checkDeathLoop h d pac idxs = .ok (h, d) := by
  intro idxs
  induction idxs with
  | nil =>
    intro h d _
    rw [checkDeathLoop]
  | cons j rest ih =>
    intro h d hall
    obtain ⟨gs, hgs, hnk⟩ := hall j (by simp)
    rw [checkDeathLoop, pyIndexNat, hgs]
    dsimp only
    rw [hnk]
    exact ih h d (fun j2 hj2 => hall j2 (by simp [hj2]))

/-- The collision check after Pacman's move is a no-op when every ghost is
out of range. -/
theorem checkDeath_pacman_no_kill (h : Heap) (d : GameStateData) (ps : AgentState)
    (hps : d.agentStates[0]? = some ps)
    (hghosts : ∀ j, 1 ≤ j → ∀ gs, d.agentStates[j]? = some gs →
      canKill ps.configuration.pos gs.configuration.pos = false) :
    checkDeath h d 0 = .ok (h, d) := by
  rw [checkDeath, pyIndexNat, hps]
  dsimp only
  rw [if_pos rfl]
  apply checkDeathLoop_no_kill
  intro j hj
  rcases List.mem_range'_1.mp hj with ⟨hj1, hj2⟩
  have hjlen : j < d.agentStates.length := by
    have : 0 < d.agentStates.length := by
      rcases List.getElem?_eq_some.mp hps with ⟨hl, _⟩
      exact hl
    omega
  refine ⟨d.agentStates[j], List.getElem?_eq_getElem hjlen, ?_⟩
  exact hghosts j hj1 _ (List.getElem?_eq_getElem hjlen)

/-- The full ghost-turn pipeline, when the ghost ends out of collision
range: move at the (possibly halved) speed, decrement the timer, keep heap,
score and everything else unchanged. -/
theorem generateSuccessor_ghost_ok (h : Heap) (st : GameStateData) (i : ℕ) (a : Direction)
    (gs ps : AgentState) (legal : List Direction)
    (hwin : st.win = false) (hlose : st.lose = false) (hi : i ≠ 0)
    (hps : st.agentStates[0]? = some ps)
    (hgs : st.agentStates[i]? = some gs)
    (hlegal : ghostLegalActions st i = .ok legal) (hmem : a ∈ legal)
    (hnk : canKill ps.configuration.pos
      (decrementTimer { gs with
        configuration := gs.configuration.generateSuccessor
          (directionToVector a
            (if gs.scaredTimer > 0 then qHalf GHOST_SPEED else GHOST_SPEED)) }).configuration.pos
      = false) :
    generateSuccessor h st i a = .ok (h,
      { st with
        agentStates := st.agentStates.set i
          (decrementTimer { gs with
            configuration := gs.configuration.generateSuccessor
              (directionToVector a
                (if gs.scaredTimer > 0 then qHalf GHOST_SPEED else GHOST_SPEED)) })
        scoreChange := 0
        win := false
        lose := false
        foodEaten := none
        foodAdded := none
        capsuleEaten := none
        agentMoved := some i
        score := st.score }) := by
  have hilen : i < st.agentStates.length := by
    rcases List.getElem?_eq_some.mp hgs with ⟨hl, _⟩
    exact hl
  set gs1 : AgentState := { gs with
    configuration := gs.configuration.generateSuccessor
      (directionToVector a
        (if gs.scaredTimer > 0 then qHalf GHOST_SPEED else GHOST_SPEED)) } with hgs1
  rw [generateSuccessor]
  rw [if_neg (by rw [hwin, hlose]; simp)]
  dsimp only
  rw [if_neg hi]
  have hgs' : (copyData st).agentStates[i]? = some gs := hgs
  have hlegal' : ghostLegalActions (copyData st) i = .ok legal := hlegal
  rw [ghostApplyAction_ok (copyData st) a i gs legal hgs' hlegal' hmem]
  dsimp only
  have hlook : (setAgent (copyData st) i gs1).agentStates[i]? = some gs1 := by
    rw [setAgent]
    exact List.getElem?_set_self hilen
  rw [decrementAgentTimer_ok _ i gs1 hlook]
  dsimp only
  have hps3 : (setAgent (setAgent (copyData st) i gs1) i
      (decrementTimer gs1)).agentStates[0]? = some ps := by
    rw [setAgent, setAgent]
    dsimp only
    rw [List.getElem?_set_ne hi, List.getElem?_set_ne hi]
    exact hps
  have hgs3 : (setAgent (setAgent (copyData st) i gs1) i
      (decrementTimer gs1)).agentStates[i]? = some (decrementTimer gs1) := by
    rw [setAgent, setAgent]
    dsimp only
    rw [List.set_set]
    exact List.getElem?_set_self hilen
  rw [checkDeath_ghost_no_kill _ _ i ps (decrementTimer gs1) hi hps3 hgs3 hnk]
  simp [setAgent, copyData, List.set_set]

/-- The full Pacman-turn pipeline from an aligned nonnegative integer point,
parametric in the outcome of `consume`, when no ghost is in collision range
of the landing point: the heap gains a fresh eaten list, the consume result
is charged the time penalty and recorded as the successor. -/
theorem generateSuccessor_pacman_ok (h : Heap) (st : GameStateData) (a : Direction)
    (ps : AgentState) (legal : List Direction) (px py : ℤ) (dcons : GameStateData)
    (hwin : st.win = false) (hlose : st.lose = false)
    (hps : st.agentStates[0]? = some ps)
    (hpos : ps.configuration.pos = ratPair (px, py))
    (hlegal : pacmanLegalActions st = .ok legal) (hmem : a ∈ legal)
    (hcx : 0 ≤ px + (directionVec a).1) (hcy : 0 ≤ py + (directionVec a).2)
    (hcons : consume (px + (directionVec a).1, py + (directionVec a).2)
      (setAgent { copyData st with eatenRef := h.length } 0
        { ps with configuration :=
          ps.configuration.generateSuccessor (directionToVector a PACMAN_SPEED) }) = .ok dcons)
    (hagents : dcons.agentStates = st.agentStates.set 0
      { ps with configuration :=
        ps.configuration.generateSuccessor (directionToVector a PACMAN_SPEED) })
    (hghosts : ∀ j, 1 ≤ j → ∀ gs, st.agentStates[j]? = some gs →
      canKill (ratPair (px + (directionVec a).1, py + (directionVec a).2))
        gs.configuration.pos = false) :
    generateSuccessor h st 0 a = .ok (h ++ [List.replicate st.agentStates.length false],
      { dcons with
        scoreChange := dcons.scoreChange + -TIME_PENALTY
        agentMoved := some 0
        score := dcons.score + (dcons.scoreChange + -TIME_PENALTY) }) := by
  have hlen0 : 0 < st.agentStates.length := by
    rcases List.getElem?_eq_some.mp hps with ⟨hl, _⟩
    exact hl
  set ps2 : AgentState := { ps with configuration :=
    ps.configuration.generateSuccessor (directionToVector a PACMAN_SPEED) } with hps2
  rw [generateSuccessor]
  rw [if_neg (by rw [hwin, hlose]; simp)]
  dsimp only
  rw [if_pos rfl]
  have hps' : ({ copyData st with eatenRef := h.length } : GameStateData).agentStates[0]?
      = some ps := hps
  have hlegal' : pacmanLegalActions { copyData st with eatenRef := h.length } = .ok legal :=
    hlegal
  rw [pacmanApplyAction_aligned _ a ps legal px py hps' hpos hcx hcy hlegal' hmem]
  rw [hcons]
  dsimp only
  have hpac4 : ({ dcons with scoreChange := dcons.scoreChange + -TIME_PENALTY }
      : GameStateData).agentStates[0]? = some ps2 := by
    dsimp only
    rw [hagents]
    exact List.getElem?_set_self hlen0
  have hgh4 : ∀ j, 1 ≤ j → ∀ gs,
      ({ dcons with scoreChange := dcons.scoreChange + -TIME_PENALTY }
        : GameStateData).agentStates[j]? = some gs →
      canKill ps2.configuration.pos gs.configuration.pos = false := by
    intro j hj gs hlookup
    dsimp only at hlookup
    rw [hagents, List.getElem?_set_ne (by omega)] at hlookup
    have hpp : ps2.configuration.pos =
        ratPair (px + (directionVec a).1, py + (directionVec a).2) := by
      rw [hps2]
      exact pacman_moved_pos ps a px py hpos
    rw [hpp]
    exact hghosts j hj gs hlookup
  rw [checkDeath_pacman_no_kill _ _ ps2 hpac4 hgh4]
  rfl

/-- C7: for every state, agent index and action, a successful
`generateSuccessor` never increases the count of food cells, and never
turns a food cell from absent to present: every cell read as food in the
successor was already food in the predecessor (and a failing transition
produces no state at all). -/
theorem claim_C7_food_monotone (h : Heap) (st : GameStateData) (i : ℕ) (a : Direction) :
    match generateSuccessor h st i a with
    | .ok (_, st2) => st2.food.count ≤ st.food.count ∧
        ∀ x y, st2.food.get x y = .ok true → st.food.get x y = .ok true
    | .error _ => True := by
  rw [generateSuccessor]
  by_cases hterm : (st.win || st.lose) = true
  · rw [if_pos hterm]
    trivial
  · rw [if_neg hterm]
    dsimp only
    by_cases hi : i = 0
    · subst hi
      rw [if_pos rfl]
      cases hpa : pacmanApplyAction
          { copyData st with eatenRef := h.length } a with
      | error e => dsimp only
      | ok d3 =>
        dsimp only
        cases hcd : checkDeath (h ++ [List.replicate (copyData st).agentStates.length false])
            { d3 with scoreChange := d3.scoreChange + -TIME_PENALTY } 0 with
        | error e => dsimp only
        | ok pair =>
          dsimp only
          have h1 := checkDeath_food _ _ _ _ _ hcd
          have h2 := pacmanApplyAction_count _ _ _ hpa
          have h3 := pacmanApplyAction_no_new _ _ _ hpa
          dsimp only at h1
          constructor
          · rw [h1]
            simpa [copyData] using h2
          · intro x y hxy
            rw [h1] at hxy
            exact h3 x y hxy
    · rw [if_neg hi]
      cases hga : ghostApplyAction (copyData st) a i with
      | error e => dsimp only
      | ok d2 =>
        dsimp only
        cases hdt : decrementAgentTimer d2 i with
        | error e => dsimp only
        | ok d3 =>
          dsimp only
          cases hcd : checkDeath h d3 i with
          | error e => dsimp only
          | ok pair =>
            dsimp only
            have h1 := checkDeath_food _ _ _ _ _ hcd
            obtain ⟨gs2, _, hd3⟩ := decrementAgentTimer_shape _ _ _ hdt
            obtain ⟨gs1, _, hd2⟩ := ghostApplyAction_shape _ _ _ _ hga
            have hfood : pair.2.food = st.food := by
              rw [h1, hd3, hd2]
              simp [setAgent, copyData]
            constructor
            · rw [hfood]
            · intro x y hxy
              rw [hfood] at hxy
              exact hxy

/-- C5: a pursuer's legal-action set never contains Stop; it contains the
reverse of the current facing only when that reverse is the only action that
survives the wall filter (so the set is exactly the singleton `[reverse]`);
and at a grid-aligned dead end whose only non-wall cardinal neighbor lies in
the reverse direction, the legal-action set is exactly `[reverse]`. -/
theorem claim_C5_ghost_legal (d : GameStateData) (i : ℕ) (gs : AgentState)
    (hgs : getGhostState d i = .ok gs) :
    (∀ acts, ghostLegalActions d i = .ok acts →
      Direction.stop ∉ acts ∧
        (reverseDirection gs.configuration.direction ∈ acts →
          acts = [reverseDirection gs.configuration.direction])) ∧
    (∀ (px py : ℤ), 0 ≤ px → 0 ≤ py →
      gs.configuration.pos = ratPair (px, py) →
      gs.configuration.direction ≠ .stop →
      (∀ dv ∈ directionsAsList, dv.1 ≠ Direction.stop →
        d.walls.get (px + dv.2.1) (py + dv.2.2) =
          .ok (decide (dv.1 ≠ reverseDirection gs.configuration.direction))) →
      ∀ cw : Bool, d.walls.get (px + 0) (py + 0) = .ok cw →
      ghostLegalActions d i = .ok [reverseDirection gs.configuration.direction]) := by
  constructor
  · intro acts hacts
    rw [ghostLegalActions, hgs] at hacts
    dsimp only at hacts
    cases hp : getPossibleActions gs.configuration d.walls with
    | error e =>
      rw [hp] at hacts
      cases hacts
    | ok possibleActions =>
      rw [hp] at hacts
      dsimp only at hacts
      cases hacts
      have hnd := getPossibleActions_nodup gs.configuration d.walls possibleActions hp
      exact ⟨removeStopReverse_no_stop _ _ hnd,
        fun hmem => removeStopReverse_reverse _ _ hnd hmem⟩
  · intro px py hpx hpy hpos hdir hwalls cw hcw
    have hN := hwalls (Direction.north, (0, 1)) (by decide) (by decide)
    have hS := hwalls (Direction.south, (0, -1)) (by decide) (by decide)
    have hE := hwalls (Direction.east, (1, 0)) (by decide) (by decide)
    have hW := hwalls (Direction.west, (-1, 0)) (by decide) (by decide)
    simp only [add_zero] at hN hS hE hW hcw
    have hrev : reverseDirection gs.configuration.direction ≠ Direction.stop := by
      cases hd2 : gs.configuration.direction <;>
        first
          | exact absurd hd2 hdir
          | decide
    have hposs : getPossibleActions gs.configuration d.walls =
        .ok (if cw then [reverseDirection gs.configuration.direction]
             else [reverseDirection gs.configuration.direction, Direction.stop]) := by
      simp only [getPossibleActions, hpos, ratPair]
      rw [pyInt_int_add_half px hpx, pyInt_int_add_half py hpy]
      simp only [qSub_eq, sub_self, qAbs_eq, abs_zero, qAdd_eq, add_zero, tolerance_eq]
      rw [if_neg (by norm_num : ¬ ((0 : ℚ) > 1/1000))]
      cases hd2 : gs.configuration.direction with
      | stop => exact absurd hd2 hdir
      | north =>
        rw [hd2] at hN hS hE hW
        cases cw <;>
          simp [directionsAsList, possibleLoop, hN, hS, hE, hW, hcw, reverseDirection]
      | south =>
        rw [hd2] at hN hS hE hW
        cases cw <;>
          simp [directionsAsList, possibleLoop, hN, hS, hE, hW, hcw, reverseDirection]
      | east =>
        rw [hd2] at hN hS hE hW
        cases cw <;>
          simp [directionsAsList, possibleLoop, hN, hS, hE, hW, hcw, reverseDirection]
      | west =>
        rw [hd2] at hN hS hE hW
        cases cw <;>
          simp [directionsAsList, possibleLoop, hN, hS, hE, hW, hcw, reverseDirection]
    rw [ghostLegalActions, hgs]
    dsimp only
    rw [hposs]
    dsimp only
    cases cw with
    | true =>
      simp [removeStopReverse, Ne.symm hrev]
    | false =>
      simp [removeStopReverse, Ne.symm hrev, List.erase_cons, hrev]

/-- Witness for C5 at the dead-end scenario (spec scenario 6): the ghost at
(1,1) facing North with only the South neighbor open gets exactly
`[South]`. -/
theorem claim_C5_ghost_legal_witness :
    ghostLegalActions deadEndState 1 = .ok [reverseDirection Direction.north] :=
  (claim_C5_ghost_legal deadEndState 1 (mkAgent (1, 1) .north false 0) (by decide)).2
    1 1 (by decide) (by decide) (by decide) (by decide)
    (by intro dv hdv hstop
        fin_cases hdv <;> simp_all <;> decide)
    false (by decide)

/-- C3: when the collision check after a pursuer's move finds it within
Manhattan distance `COLLISION_TOLERANCE = 0.7` of Pacman, then (a) if its
scared timer is positive, the resolution adds the fixed bonus 200 to the
score change, resets the pursuer's configuration to its start configuration,
zeroes its timer, and marks it eaten on the shared `_eaten` list; (b) if its
timer is 0 and the win flag is not set, the resolution subtracts the fixed
penalty 500 and sets the lose flag. -/
theorem claim_C3_collision_payoff (h : Heap) (d : GameStateData) (i : ℕ)
    (ps gs : AgentState) (el : List Bool)
    (hi : i ≠ 0)
    (hps : d.agentStates[0]? = some ps)
    (hgs : d.agentStates[i]? = some gs)
    (hel : h[d.eatenRef]? = some el)
    (hlen : i < el.length)
    (hdist : manhattanDistance gs.configuration.pos ps.configuration.pos ≤ COLLISION_TOLERANCE) :
    (0 < gs.scaredTimer →
      checkDeath h d i =
        .ok (h.set d.eatenRef (el.set i true),
          { d with
            scoreChange := d.scoreChange + 200
            agentStates := d.agentStates.set i
              { gs with configuration := gs.start, scaredTimer := 0 } })) ∧
    (gs.scaredTimer = 0 → d.win = false →
      checkDeath h d i =
        .ok (h, { d with scoreChange := d.scoreChange - 500, lose := true })) := by
  have hps2 : pyIndexNat d.agentStates 0 = .ok ps := by
    rw [pyIndexNat, hps]
  have hgs2 : pyIndexNat d.agentStates i = .ok gs := by
    rw [pyIndexNat, hgs]
  have hkill : canKill ps.configuration.pos gs.configuration.pos = true := by
    rw [canKill]
    exact decide_eq_true hdist
  have hheap : heapSetEaten h d.eatenRef i = .ok (h.set d.eatenRef (el.set i true)) := by
    rw [heapSetEaten, hel]
    exact if_pos hlen
  constructor
  · intro htimer
    rw [checkDeath]
    simp only [hps2, if_neg hi, hgs2, hkill, if_true]
    rw [collide]
    simp only [hgs2, if_pos htimer, hheap, setAgent]
  · intro htimer hwin
    rw [checkDeath]
    simp only [hps2, if_neg hi, hgs2, hkill, if_true]
    rw [collide]
    simp only [hgs2, htimer]
    rw [if_neg (lt_irrefl (0 : ℤ)), if_pos hwin]

/-- C2 (amended): when Pacman, standing aligned on a nonnegative integer
cell, takes a legal action onto the only remaining food cell (no capsule
there, no pursuer within collision range of the landing cell), the
transition adds item reward + win bonus − time penalty = 10 + 500 − 1 = 509
to the score, sets the win flag, and every legal-action query on the
successor returns the empty list. -/
theorem claim_C2_win_transition (h : Heap) (st : GameStateData) (a : Direction)
    (ps : AgentState) (legal : List Direction) (px py : ℤ) (food2 : Grid)
    (hwin : st.win = false) (hlose : st.lose = false)
    (hps : st.agentStates[0]? = some ps)
    (hpos : ps.configuration.pos = ratPair (px, py))
    (hlegal : pacmanLegalActions st = .ok legal) (hmem : a ∈ legal)
    (hcx : 0 ≤ px + (directionVec a).1) (hcy : 0 ≤ py + (directionVec a).2)
    (hget : st.food.get (px + (directionVec a).1) (py + (directionVec a).2) = .ok true)
    (hset : st.food.set (px + (directionVec a).1) (py + (directionVec a).2) false = .ok food2)
    (hcount : food2.count = 0)
    (hcap : (px + (directionVec a).1, py + (directionVec a).2) ∉ st.capsules)
    (hghosts : ∀ j, 1 ≤ j → ∀ gs, st.agentStates[j]? = some gs →
      canKill (ratPair (px + (directionVec a).1, py + (directionVec a).2))
        gs.configuration.pos = false) :
    resultScore (generateSuccessor h st 0 a) = some (st.score + 509) ∧
      resultWin (generateSuccessor h st 0 a) = some true ∧
      ∀ j, resultLegal (generateSuccessor h st 0 a) j = some (.ok []) := by
  have hconsume : consume (px + (directionVec a).1, py + (directionVec a).2)
      (setAgent { copyData st with eatenRef := h.length } 0
        { ps with configuration :=
          ps.configuration.generateSuccessor (directionToVector a PACMAN_SPEED) }) =
      .ok { (setAgent { copyData st with eatenRef := h.length } 0
            { ps with configuration :=
              ps.configuration.generateSuccessor (directionToVector a PACMAN_SPEED) }) with
        food := food2
        foodEaten := some (px + (directionVec a).1, py + (directionVec a).2)
        scoreChange := 0 + 10 + 500
        win := true } :=
    consume_last_food _ _ food2 hget hset hcount rfl hcap
  have hmain := generateSuccessor_pacman_ok h st a ps legal px py _ hwin hlose hps hpos
    hlegal hmem hcx hcy hconsume rfl hghosts
  refine ⟨?_, ?_, ?_⟩
  · rw [hmain]
    simp only [resultScore, setAgent, copyData, TIME_PENALTY]
    norm_num
  · rw [hmain]
    simp only [resultWin]
  · intro j
    rw [hmain]
    simp [resultLegal, getLegalActions]

/-- Witness for C2 (amended) at the spec's own scenario. -/
theorem claim_C2_win_transition_witness :
    resultScore (generateSuccessor lastFoodHeap lastFoodState 0 .east) =
        some (lastFoodState.score + 509) ∧
      resultWin (generateSuccessor lastFoodHeap lastFoodState 0 .east) = some true ∧
      ∀ j, resultLegal (generateSuccessor lastFoodHeap lastFoodState 0 .east) j =
        some (.ok []) :=
  claim_C2_win_transition lastFoodHeap lastFoodState .east (mkAgent (1, 1) .stop true 0)
    [.east, .stop] 1 1 foodCleared (by decide) (by decide) (by decide) (by decide)
    (by decide) (by decide) (by decide) (by decide) (by decide) (by decide) (by decide)
    (by decide)
    (by
      intro j hj gs hlook
      rcases List.getElem?_eq_some.mp hlook with ⟨hlt, _⟩
      have : j < 1 := by simpa [lastFoodState, mkAgent] using hlt
      omega)

/-- C6 (amended): on a pursuer's own turn that ends outside collision range
of Pacman, its scared timer decreases by exactly 1 with floor 0, and exactly
when the timer goes from 1 to 0 the pursuer's position is first snapped to
the nearest grid point (otherwise the position is just the moved one). -/
theorem claim_C6_timer_decrement (h : Heap) (st : GameStateData) (i : ℕ) (a : Direction)
    (gs ps : AgentState) (legal : List Direction)
    (hwin : st.win = false) (hlose : st.lose = false) (hi : i ≠ 0)
    (hps : st.agentStates[0]? = some ps)
    (hgs : st.agentStates[i]? = some gs)
    (hlegal : ghostLegalActions st i = .ok legal) (hmem : a ∈ legal)
    (hnk : canKill ps.configuration.pos
      (decrementTimer { gs with
        configuration := gs.configuration.generateSuccessor
          (directionToVector a
            (if gs.scaredTimer > 0 then qHalf GHOST_SPEED else GHOST_SPEED)) }).configuration.pos
      = false) :
    (resultAgent (generateSuccessor h st i a) i).map AgentState.scaredTimer =
        some (max 0 (gs.scaredTimer - 1)) ∧
      (gs.scaredTimer = 1 →
        (resultAgent (generateSuccessor h st i a) i).map (fun g => g.configuration.pos) =
          some (ratPair (nearestPoint
            (gs.configuration.generateSuccessor
              (directionToVector a
                (if gs.scaredTimer > 0 then qHalf GHOST_SPEED else GHOST_SPEED))).pos))) ∧
      (gs.scaredTimer ≠ 1 →
        (resultAgent (generateSuccessor h st i a) i).map (fun g => g.configuration.pos) =
          some (gs.configuration.generateSuccessor
            (directionToVector a
              (if gs.scaredTimer > 0 then qHalf GHOST_SPEED else GHOST_SPEED))).pos) := by
  have hilen : i < st.agentStates.length := by
    rcases List.getElem?_eq_some.mp hgs with ⟨hl, _⟩
    exact hl
  have hmain := generateSuccessor_ghost_ok h st i a gs ps legal hwin hlose hi hps hgs
    hlegal hmem hnk
  have hagent : resultAgent (generateSuccessor h st i a) i =
      some (decrementTimer { gs with
        configuration := gs.configuration.generateSuccessor
          (directionToVector a
            (if gs.scaredTimer > 0 then qHalf GHOST_SPEED else GHOST_SPEED)) }) := by
    rw [hmain]
    simp only [resultAgent]
    exact List.getElem?_set_self hilen
  refine ⟨?_, ?_, ?_⟩
  · rw [hagent]
    simp only [Option.map_some']
    rw [decrementTimer_scaredTimer]
  · intro h1
    rw [hagent]
    simp only [Option.map_some']
    rw [decrementTimer_pos_snap _ (by exact h1)]
  · intro h1
    rw [hagent]
    simp only [Option.map_some']
    rw [decrementTimer_pos_id _ (by exact h1)]

/-- Witness for C6 (amended): the far scared ghost's timer goes from 5 to
4 on its own move. -/
theorem claim_C6_timer_decrement_witness :
    (resultAgent (generateSuccessor scaredGhostHeap farGhostState 1 .south) 1).map
        AgentState.scaredTimer = some 4 := by
  have h := (claim_C6_timer_decrement scaredGhostHeap farGhostState 1 .south
      (mkAgent (1, 3) .north false 5) (mkAgent (1, 1) .stop true 0) [.south]
      (by decide) (by decide) (by decide) (by decide) (by decide) (by decide) (by decide)
      (by decide)).1
  rw [h]
  decide

/-- C10: every Pacman transition pays the fixed −1 time penalty on top of
any other scoring: a Pacman move that eats nothing and collides with
nothing changes the score by exactly −TIME_PENALTY = −1, while a pursuer
move (no collision) incurs no time penalty at all: the score is unchanged. -/
theorem claim_C10_time_penalty :
    (∀ (h : Heap) (st : GameStateData) (a : Direction) (ps : AgentState)
        (legal : List Direction) (px py : ℤ),
      st.win = false → st.lose = false →
      st.agentStates[0]? = some ps → ps.configuration.pos = ratPair (px, py) →
      pacmanLegalActions st = .ok legal → a ∈ legal →
      0 ≤ px + (directionVec a).1 → 0 ≤ py + (directionVec a).2 →
      st.food.get (px + (directionVec a).1) (py + (directionVec a).2) = .ok false →
      (px + (directionVec a).1, py + (directionVec a).2) ∉ st.capsules →
      (∀ j, 1 ≤ j → ∀ gs, st.agentStates[j]? = some gs →
        canKill (ratPair (px + (directionVec a).1, py + (directionVec a).2))
          gs.configuration.pos = false) →
      resultScore (generateSuccessor h st 0 a) = some (st.score - TIME_PENALTY)) ∧
    (∀ (h : Heap) (st : GameStateData) (i : ℕ) (a : Direction) (gs ps : AgentState)
        (legal : List Direction),
      st.win = false → st.lose = false → i ≠ 0 →
      st.agentStates[0]? = some ps → st.agentStates[i]? = some gs →
      ghostLegalActions st i = .ok legal → a ∈ legal →
      canKill ps.configuration.pos
        (decrementTimer { gs with
          configuration := gs.configuration.generateSuccessor
            (directionToVector a
              (if gs.scaredTimer > 0 then qHalf GHOST_SPEED
               else GHOST_SPEED)) }).configuration.pos = false →
      resultScore (generateSuccessor h st i a) = some st.score) := by
  constructor
  · intro h st a ps legal px py hwin hlose hps hpos hlegal hmem hcx hcy hget hcap hghosts
    have hconsume : consume (px + (directionVec a).1, py + (directionVec a).2)
        (setAgent { copyData st with eatenRef := h.length } 0
          { ps with configuration :=
            ps.configuration.generateSuccessor (directionToVector a PACMAN_SPEED) }) =
        .ok (setAgent { copyData st with eatenRef := h.length } 0
          { ps with configuration :=
            ps.configuration.generateSuccessor (directionToVector a PACMAN_SPEED) }) :=
      consume_nothing _ _ hget hcap
    have hmain := generateSuccessor_pacman_ok h st a ps legal px py _ hwin hlose hps hpos
      hlegal hmem hcx hcy hconsume rfl hghosts
    rw [hmain]
    dsimp only [resultScore, setAgent, copyData, TIME_PENALTY]
    congr 1
  · intro h st i a gs ps legal hwin hlose hi hps hgs hlegal hmem hnk
    have hmain := generateSuccessor_ghost_ok h st i a gs ps legal hwin hlose hi hps hgs
      hlegal hmem hnk
    rw [hmain]
    simp only [resultScore]

/-- Witness for C10 at concrete eventless moves of both roles. -/
theorem claim_C10_time_penalty_witness :
    resultScore (generateSuccessor lastFoodHeap noFoodState 0 .east) =
        some (noFoodState.score - TIME_PENALTY) ∧
      resultScore (generateSuccessor scaredGhostHeap farGhostState 1 .south) =
        some farGhostState.score :=
  ⟨claim_C10_time_penalty.1 lastFoodHeap noFoodState .east (mkAgent (1, 1) .stop true 0)
      [.east, .stop] 1 1 (by decide) (by decide) (by decide) (by decide) (by decide)
      (by decide) (by decide) (by decide) (by decide) (by decide)
      (by
        intro j hj gs hlook
        rcases List.getElem?_eq_some.mp hlook with ⟨hlt, _⟩
        have : j < 1 := by simpa [noFoodState, lastFoodState, mkAgent] using hlt
        omega),
    claim_C10_time_penalty.2 scaredGhostHeap farGhostState 1 .south
      (mkAgent (1, 3) .north false 5) (mkAgent (1, 1) .stop true 0) [.south]
      (by decide) (by decide) (by decide) (by decide) (by decide) (by decide) (by decide)
      (by decide)⟩

/-- Witness for C3 (scared branch) at a concrete collision. -/
theorem claim_C3_collision_payoff_witness :
    checkDeath scaredGhostHeap collisionState 1 =
      .ok (scaredGhostHeap.set 0 ([false, false].set 1 true),
        { collisionState with
          scoreChange := collisionState.scoreChange + 200
          agentStates := collisionState.agentStates.set 1
            { ghostNear with configuration := ghostNear.start, scaredTimer := 0 } }) :=
  (claim_C3_collision_payoff scaredGhostHeap collisionState 1
      (mkAgent (1, 1) .stop true 0) ghostNear [false, false]
      (by decide) (by decide) (by decide) (by decide) (by decide) (by decide)).1
    (by decide)

end PacmanGame
